import Mathlib

/-!
Verification of the HTTP boundary layer of an AI study-assistant backend
(`src/api/main.py`).  The route layer is embedded shallowly:

* The filesystem is a finite map from OS-resolved paths to entries (regular
  files with their contents, or directories).  A path is the list of its
  components after resolution ("" and "." dropped, ".." popping), with a flag
  for paths starting at the filesystem root.  The upload route writes to
  `os.path.join(UPLOAD_DIR, filename)` resolved this way, so filenames with
  path separators or a leading '/' can land outside `data/uploads`, as in the
  source.  Creating a new file requires its parent directory to exist;
  overwriting an existing regular file always succeeds; writing onto a
  directory fails.
* The three module-level globals (`vector_store`, `rag_system`,
  `quiz_generator`) together with the on-disk persisted index flag and the
  filesystem form the state `St` threaded through the handlers.
* The collaborator modules (`DocumentIngestion`, `RAGSystem`, `QuizGenerator`)
  are not part of the shown source; they appear as an oracle `Collab` whose
  functions either return a value or raise a Python exception, modelled as
  `Except String`.
* Each route handler is a total Lean function returning the HTTP response
  (success payload or `HTTPException` as an `HttpError`), the post-state where
  the handler mutates it, and the list of collaborator calls it performed.
-/

namespace StudyAPI

/-- An HTTP error response raised via FastAPI's HTTPException. -/
structure HttpError where
  status : Nat
  detail : String
deriving DecidableEq, Repr

/-- A route outcome: a success payload or an HTTP error. -/
abbrev Resp (α : Type) := Except HttpError α

/-- A filesystem entry: a regular file with its contents, or a directory
(`os.path.isfile` distinguishes the two in the source). -/
inductive FsEntry
  | file (content : String)
  | dir
deriving DecidableEq, Repr

/-- Whether an entry is a regular file, as `os.path.isfile`. -/
def FsEntry.isFile : FsEntry → Bool
  | .file _ => true
  | .dir => false

/-- Split a character list at '/' separators. -/
def splitOnSlash : List Char → List (List Char)
  | [] => [[]]
  | c :: cs =>
    let r := splitOnSlash cs
    if c = '/' then [] :: r
    else
      match r with
      | [] => [[c]]
      | h :: t => (c :: h) :: t

/-- The raw '/'-separated components of a path string. -/
def strComps (s : String) : List String :=
  (splitOnSlash s.data).map (fun l => String.mk l)

/-- Whether a path string is absolute (starts with '/'). -/
def startsWithSlash (s : String) : Bool :=
  match s.data with
  | c :: _ => c == '/'
  | [] => false

/-- Resolve raw path components the way the OS does when the path is used:
empty components and "." are dropped, ".." pops the previous component (for a
path starting at the root, ".." at the root vanishes; otherwise leading ".."
components are kept).  The first list is the reversed stack of resolved
components. -/
def normStack (anchored : Bool) : List String → List String → List String
  | stack, [] => stack.reverse
  | stack, c :: cs =>
    if c = "" ∨ c = "." then normStack anchored stack cs
    else if c = ".." then
      match stack with
      | [] =>
        if anchored then normStack anchored [] cs
        else normStack anchored [".."] cs
      | top :: rest =>
        if top = ".." then normStack anchored (".." :: top :: rest) cs
        else normStack anchored rest cs
    else normStack anchored (c :: stack) cs

/-- The resolved components of a raw component list. -/
def normComps (anchored : Bool) (cs : List String) : List String :=
  normStack anchored [] cs

/-- An OS-resolved filesystem path: whether it starts at the filesystem root,
and its resolved components. -/
structure AbsPath where
  anchored : Bool
  comps : List String
deriving DecidableEq, Repr

/-- The resolved location a path string refers to. -/
def resolvePath (s : String) : AbsPath :=
  ⟨startsWithSlash s, normComps (startsWithSlash s) (strComps s)⟩

/-- The filesystem: a finite map from resolved paths to entries. -/
abbrev Fs := List (AbsPath × FsEntry)

/-- Look a resolved path up in the filesystem. -/
def fsLookup : Fs → AbsPath → Option FsEntry
  | [], _ => none
  | (p, e) :: rest, q => if p = q then some e else fsLookup rest q

/-- Remove every binding of a resolved path from the filesystem. -/
def fsErase : Fs → AbsPath → Fs
  | [], _ => []
  | (p, e) :: rest, q => if p = q then fsErase rest q else (p, e) :: fsErase rest q

/-- The parent directory of a resolved path. -/
def parentPath (p : AbsPath) : AbsPath :=
  ⟨p.anchored, p.comps.dropLast⟩

/-- Whether a resolved path is a directory; the filesystem root and the working
directory (empty component lists) always exist. -/
def fsIsDir (fs : Fs) (p : AbsPath) : Bool :=
  p.comps.isEmpty ||
    match fsLookup fs p with
    | some .dir => true
    | _ => false

/-- Writing a file, as the source's `open(file_path, "wb")` followed by
`shutil.copyfileobj`: overwriting an existing regular file succeeds, creating
a new file requires the parent directory to exist, and writing onto a
directory raises. -/
def fsWrite (fs : Fs) (p : AbsPath) (content : String) : Except String Fs :=
  match fsLookup fs p with
  | some .dir => .error "Is a directory"
  | some (.file _) => .ok ((p, .file content) :: fsErase fs p)
  | none =>
    if fsIsDir fs (parentPath p) then .ok ((p, .file content) :: fsErase fs p)
    else .error "No such file or directory"

/-- The final path component of a path string, as pathlib's name attribute:
the last nonempty piece between '/' separators (empty when there is none). -/
def pathFinalComponent (s : String) : List Char :=
  match ((splitOnSlash s.data).filter (fun p => p ≠ [])).getLast? with
  | some p => p
  | none => []

/-- The index of the last '.' in a character list, if any. -/
def lastDotIdx : List Char → Option Nat
  | [] => none
  | c :: cs =>
    match lastDotIdx cs with
    | some i => some (i + 1)
    | none => if c = '.' then some 0 else none

/-- The filename's dot-extension, as CPython pathlib computes it: the final
component from its last dot onwards, provided that dot is neither the first
nor the last character of the component; otherwise the empty string. -/
def pathExt (s : String) : String :=
  let name := pathFinalComponent s
  match lastDotIdx name with
  | some i => if 0 < i ∧ i + 1 < name.length then String.mk (name.drop i) else ""
  | none => ""

/-- ASCII lowercasing, as Python's str.lower on the extensions involved. -/
def lowerStr (s : String) : String :=
  String.mk (s.data.map Char.toLower)

/-- Membership in the source's allow-list `['.pdf', '.txt']`. -/
def supportedExt (e : String) : Bool :=
  e == ".pdf" || e == ".txt"

/-- The constant `UPLOAD_DIR` of the source. -/
def UPLOAD_DIR : String := "data/uploads"

/-- The constant `VECTOR_STORE_NAME` of the source. -/
def VECTOR_STORE_NAME : String := "study_materials"

/-- `os.path.join(UPLOAD_DIR, filename)` as a path string: an absolute
filename discards the directory, otherwise the two are joined with '/'. -/
def uploadPath (filename : String) : String :=
  if startsWithSlash filename then filename else UPLOAD_DIR ++ "/" ++ filename

/-- The resolved location the upload handler writes a client filename to. -/
def clientTarget (filename : String) : AbsPath :=
  resolvePath (uploadPath filename)

/-- The resolved path of an entry named `n` directly inside the upload
directory. -/
def uploadEntry (n : String) : AbsPath :=
  ⟨false, ["data", "uploads", n]⟩

/-- The entry name when a resolved path lies directly inside the upload
directory. -/
def uploadsChildName (p : AbsPath) : Option String :=
  match p with
  | ⟨false, [a, b, n]⟩ => if a = "data" ∧ b = "uploads" then some n else none
  | _ => none

/-- `os.listdir(UPLOAD_DIR)`: the names of the entries directly inside the
upload directory. -/
def listdirUploads (fs : Fs) : List String :=
  fs.filterMap (fun e => uploadsChildName e.1)

/-- Whether a filesystem binding is a regular file directly inside the upload
directory (the bindings the reset loop removes; for the slash-free names
listdir yields, `os.path.join(UPLOAD_DIR, name)` resolves to that child
entry). -/
def uploadsFileEntry (e : AbsPath × FsEntry) : Bool :=
  match uploadsChildName e.1 with
  | some _ => e.2.isFile
  | none => false

/-- An opaque handle to a vector store returned by the ingestion collaborator. -/
abbrev VS := Nat

/-- An opaque handle to a constructed `RAGSystem`. -/
structure RAG where
  store : VS
deriving DecidableEq, Repr

/-- An opaque handle to a constructed `QuizGenerator`. -/
structure QuizGen where
  store : VS
deriving DecidableEq, Repr

/-- The payload returned by `RAGSystem.ask_question`. -/
structure AskResult where
  answer : String
  sources : List String
deriving DecidableEq, Repr

/-- The payload returned by `RAGSystem.summarize`. -/
structure SummaryResult where
  summary : String
  sources : List String
deriving DecidableEq, Repr

/-- The payload returned by `RAGSystem.extract_definitions`. -/
structure DefinitionsResult where
  definitions : String
  sources : List String
deriving DecidableEq, Repr

/-- The mapping returned by `QuizGenerator.generate_quiz`: `errField` is the
value of its "error" key when that key is present. -/
structure QuizOut where
  errField : Option String
  questions : List String
deriving DecidableEq, Repr

/-- The payload returned by `QuizGenerator.grade_quiz`. -/
structure GradeResult where
  score : Nat
  correct : Nat
  total : Nat
deriving DecidableEq, Repr

/-- The collaborator modules, visible to the route layer only through these
calls; each may raise (`Except.error` carries the exception message). -/
structure Collab where
  process_documents : String → Except String (List String)
  create_vector_store : List String → String → Except String VS
  add_documents_to_existing_store : List String → String → Except String Unit
  load_vector_store : String → Except String VS
  newRAGSystem : VS → Except String RAG
  newQuizGenerator : VS → Except String QuizGen
  rag_ask_question : RAG → String → Nat → Except String AskResult
  rag_summarize : RAG → Option String → String → Nat → Except String SummaryResult
  rag_extract_definitions : RAG → String → Except String DefinitionsResult
  quiz_generate_quiz : QuizGen → String → Nat → String → Except String QuizOut
  quiz_grade_quiz : QuizGen → List String → List (Nat × String) → Except String GradeResult

/-- One collaborator call performed by a handler. -/
inductive CallEvent
  | processDocuments (path : String)
  | createVectorStore
  | addDocuments
  | loadVectorStore
  | mkRAG
  | mkQuiz
  | askQuestion
  | summarizeCall
  | extractDefinitions
  | generateQuiz
  | gradeQuiz
deriving DecidableEq, Repr

/-- The process-wide state of the boundary layer: the filesystem, whether the
persisted index directory `data/vector_store/study_materials` exists on disk,
and the three module-level globals. -/
structure St where
  fs : Fs
  indexDirOnDisk : Bool
  vector_store : Option VS
  rag_system : Option RAG
  quiz_generator : Option QuizGen
deriving DecidableEq, Repr

/-- Session state is uninitialized: no successful upload since process start or
since the last reset, so all three globals are null. -/
def St.uninitialized (st : St) : Prop :=
  st.vector_store = none ∧ st.rag_system = none ∧ st.quiz_generator = none

/-- The success payload of POST /upload. -/
structure UploadOk where
  message : String
  filename : String
  chunks_created : Nat
  status : String
deriving DecidableEq, Repr

/-- The success payload of GET /documents. -/
structure DocsOk where
  documents : List String
  count : Nat
deriving DecidableEq, Repr

/-- The success payload of DELETE /reset. -/
structure ResetOk where
  message : String
  status : String
deriving DecidableEq, Repr

/-- The inner try block of the upload route: with no active store, build a new
one from the chunks; otherwise add the chunks to the existing named store and
reload it from disk.  Returns the store that the global is assigned (or the
message of the exception the block raised) together with the collaborator
calls made before returning or raising. -/
def createOrUpdateStore (c : Collab) (chunks : List String) (cur : Option VS) :
    Except String VS × List CallEvent :=
  match cur with
  | none =>
    match c.create_vector_store chunks VECTOR_STORE_NAME with
    | .ok v => (.ok v, [.createVectorStore])
    | .error m => (.error m, [.createVectorStore])
  | some _ =>
    match c.add_documents_to_existing_store chunks VECTOR_STORE_NAME with
    | .error m => (.error m, [.addDocuments])
    | .ok _ =>
      match c.load_vector_store VECTOR_STORE_NAME with
      | .error m => (.error m, [.addDocuments, .loadVectorStore])
      | .ok v => (.ok v, [.addDocuments, .loadVectorStore])

/-- POST /upload (`upload_document`): validate the extension, save the file at
the resolved `os.path.join(UPLOAD_DIR, filename)`, chunk it via the ingestion
collaborator, create or update the vector store, then rebuild the RAG and quiz
engines from the resulting store.  HTTPException is re-raised as-is; any other
exception becomes 500 "Upload failed: ...". -/
def upload_document (c : Collab) (st : St) (filename content : String) :
    Resp UploadOk × St × List CallEvent :=
  let ext := lowerStr (pathExt filename)
  if supportedExt ext then
    match fsWrite st.fs (clientTarget filename) content with
    | .error m => (.error ⟨500, "Upload failed: " ++ m⟩, st, [])
    | .ok ups =>
      let st1 : St := { st with fs := ups }
      match c.process_documents (uploadPath filename) with
      | .error m =>
        (.error ⟨500, "Upload failed: " ++ m⟩, st1, [.processDocuments (uploadPath filename)])
      | .ok chunks =>
        if chunks.isEmpty then
          (.error ⟨500, "Failed to extract content from document"⟩, st1,
           [.processDocuments (uploadPath filename)])
        else
          let cu := createOrUpdateStore c chunks st1.vector_store
          match cu.1 with
          | .error m =>
            (.error ⟨500, "Failed to create/update vector store: " ++ m⟩, st1,
             .processDocuments (uploadPath filename) :: cu.2)
          | .ok v =>
            let st2 : St := { st1 with vector_store := some v }
            match c.newRAGSystem v with
            | .error m =>
              (.error ⟨500, "Upload failed: " ++ m⟩, st2,
               .processDocuments (uploadPath filename) :: cu.2 ++ [.mkRAG])
            | .ok r =>
              let st3 : St := { st2 with rag_system := some r }
              match c.newQuizGenerator v with
              | .error m =>
                (.error ⟨500, "Upload failed: " ++ m⟩, st3,
                 .processDocuments (uploadPath filename) :: cu.2 ++ [.mkRAG, .mkQuiz])
              | .ok q =>
                (.ok ⟨"Document uploaded and processed successfully", filename,
                      chunks.length, "success"⟩,
                 { st3 with quiz_generator := some q },
                 .processDocuments (uploadPath filename) :: cu.2 ++ [.mkRAG, .mkQuiz])
  else
    (.error ⟨400, "Unsupported file type: " ++ ext ++ ". Only .pdf and .txt are supported."⟩,
     st, [])

/-- POST /ask (`ask_question`): guard on the RAG engine, then forward to the
collaborator; a collaborator exception becomes 500. -/
def ask_question (c : Collab) (st : St) (question : String) (k : Nat) :
    Resp AskResult × List CallEvent :=
  match st.rag_system with
  | none =>
    (.error ⟨400, "No documents uploaded yet. Please upload documents first."⟩, [])
  | some r =>
    match c.rag_ask_question r question k with
    | .ok res => (.ok res, [.askQuestion])
    | .error m => (.error ⟨500, "Question answering failed: " ++ m⟩, [.askQuestion])

/-- POST /summarize (`summarize`): guard on the RAG engine, then forward to the
collaborator; a collaborator exception becomes 500. -/
def summarize (c : Collab) (st : St) (topic : Option String) (summary_type : String) (k : Nat) :
    Resp SummaryResult × List CallEvent :=
  match st.rag_system with
  | none =>
    (.error ⟨400, "No documents uploaded yet. Please upload documents first."⟩, [])
  | some r =>
    match c.rag_summarize r topic summary_type k with
    | .ok res => (.ok res, [.summarizeCall])
    | .error m => (.error ⟨500, "Summarization failed: " ++ m⟩, [.summarizeCall])

/-- POST /definitions (`get_definitions`): guard on the RAG engine, then forward
to the collaborator; a collaborator exception becomes 500. -/
def get_definitions (c : Collab) (st : St) (topic : String) :
    Resp DefinitionsResult × List CallEvent :=
  match st.rag_system with
  | none =>
    (.error ⟨400, "No documents uploaded yet. Please upload documents first."⟩, [])
  | some r =>
    match c.rag_extract_definitions r topic with
    | .ok res => (.ok res, [.extractDefinitions])
    | .error m => (.error ⟨500, "Definition extraction failed: " ++ m⟩, [.extractDefinitions])

/-- POST /quiz/generate (`generate_quiz`): guard on the quiz engine, forward to
the collaborator, turn a result carrying an "error" key into 500 with that
value as detail; a collaborator exception becomes 500. -/
def generate_quiz (c : Collab) (st : St) (topic : String) (num_questions : Nat)
    (difficulty : String) : Resp QuizOut × List CallEvent :=
  match st.quiz_generator with
  | none =>
    (.error ⟨400, "No documents uploaded yet. Please upload documents first."⟩, [])
  | some q =>
    match c.quiz_generate_quiz q topic num_questions difficulty with
    | .error m => (.error ⟨500, "Quiz generation failed: " ++ m⟩, [.generateQuiz])
    | .ok out =>
      match out.errField with
      | some msg => (.error ⟨500, msg⟩, [.generateQuiz])
      | none => (.ok out, [.generateQuiz])

/-- POST /quiz/grade (`grade_quiz`): guard on the quiz engine, then forward to
the collaborator; a collaborator exception becomes 500. -/
def grade_quiz (c : Collab) (st : St) (questions : List String)
    (user_answers : List (Nat × String)) : Resp GradeResult × List CallEvent :=
  match st.quiz_generator with
  | none =>
    (.error ⟨400, "No documents uploaded yet. Please upload documents first."⟩, [])
  | some q =>
    match c.quiz_grade_quiz q questions user_answers with
    | .ok res => (.ok res, [.gradeQuiz])
    | .error m => (.error ⟨500, "Quiz grading failed: " ++ m⟩, [.gradeQuiz])

/-- GET /documents (`list_documents`): the names listed directly inside the
upload directory whose joined path is a regular file. -/
def list_documents (st : St) : Resp DocsOk :=
  let files := (listdirUploads st.fs).filter
    (fun f =>
      match fsLookup st.fs (uploadEntry f) with
      | some (.file _) => true
      | _ => false)
  .ok ⟨files, files.length⟩

/-- DELETE /reset (`reset_system`): remove every regular file directly inside
the upload directory (entries that are not regular files are skipped), remove
the persisted index directory, and null the three globals. -/
def reset_system (st : St) : Resp ResetOk × St :=
  (.ok ⟨"System reset successfully", "success"⟩,
   { fs := st.fs.filter (fun e => !uploadsFileEntry e),
     indexDirOnDisk := false,
     vector_store := none,
     rag_system := none,
     quiz_generator := none })

/-- The filesystem at process start: `data` and the upload directory `data/
uploads` exist (the module runs os.makedirs on it) and nothing is uploaded. -/
def baseFs : Fs :=
  [(⟨false, ["data"]⟩, FsEntry.dir), (⟨false, ["data", "uploads"]⟩, FsEntry.dir)]

/-- The initial state: base filesystem, no persisted index, all globals null. -/
def st0 : St :=
  { fs := baseFs, indexDirOnDisk := false,
    vector_store := none, rag_system := none, quiz_generator := none }

/-- A collaborator oracle on which every call succeeds. -/
def okCollab : Collab where
  process_documents := fun _ => .ok ["alpha", "beta"]
  create_vector_store := fun _ _ => .ok 1
  add_documents_to_existing_store := fun _ _ => .ok ()
  load_vector_store := fun _ => .ok 2
  newRAGSystem := fun v => .ok ⟨v⟩
  newQuizGenerator := fun v => .ok ⟨v⟩
  rag_ask_question := fun _ _ _ => .ok ⟨"ans", ["s1"]⟩
  rag_summarize := fun _ _ _ _ => .ok ⟨"sum", ["s1"]⟩
  rag_extract_definitions := fun _ _ => .ok ⟨"defs", ["s1"]⟩
  quiz_generate_quiz := fun _ _ _ _ => .ok ⟨none, ["q1"]⟩
  quiz_grade_quiz := fun _ _ _ => .ok ⟨100, 1, 1⟩

/-- A state after some successful upload: index on disk and all globals set. -/
def stInit : St :=
  { fs := baseFs, indexDirOnDisk := true,
    vector_store := some 1, rag_system := some ⟨1⟩, quiz_generator := some ⟨1⟩ }

/-- A state whose active store is the handle 7. -/
def stSome : St :=
  { fs := baseFs, indexDirOnDisk := true,
    vector_store := some 7, rag_system := some ⟨7⟩, quiz_generator := some ⟨7⟩ }

/-- A state whose upload directory holds one directory entry. -/
def stDirEntry : St :=
  { fs := (uploadEntry "archive", FsEntry.dir) :: baseFs, indexDirOnDisk := true,
    vector_store := some 1, rag_system := some ⟨1⟩, quiz_generator := some ⟨1⟩ }

/-- A state whose upload directory holds one previously uploaded file. -/
def stOldFile : St :=
  { fs := (uploadEntry "a.txt", FsEntry.file "old") :: baseFs, indexDirOnDisk := false,
    vector_store := none, rag_system := none, quiz_generator := none }

/-- An oracle whose ingestion step raises. -/
def colPDfail : Collab :=
  { okCollab with process_documents := fun _ => .error "E1" }

/-- An oracle whose ingestion step returns no chunks. -/
def colNoChunks : Collab :=
  { okCollab with process_documents := fun _ => .ok [] }

/-- An oracle whose store creation raises. -/
def colCVfail : Collab :=
  { okCollab with create_vector_store := fun _ _ => .error "E2" }

/-- An oracle whose RAGSystem construction raises. -/
def colRAGfail : Collab :=
  { okCollab with newRAGSystem := fun _ => .error "E3" }

/-- An oracle whose QuizGenerator construction raises. -/
def colQGfail : Collab :=
  { okCollab with newQuizGenerator := fun _ => .error "E4" }

/-- An oracle whose query-time calls all raise. -/
def colQueryFail : Collab :=
  { okCollab with
    rag_ask_question := fun _ _ _ => .error "E5"
    rag_summarize := fun _ _ _ _ => .error "E6"
    rag_extract_definitions := fun _ _ => .error "E7"
    quiz_generate_quiz := fun _ _ _ _ => .error "E8"
    quiz_grade_quiz := fun _ _ _ => .error "E9" }

/-- A successful `fsWrite` puts the written file in front of the remaining
bindings. -/
theorem fsWrite_ok_inv {fs : Fs} {p : AbsPath} {content : String}
    {ups : Fs} (h : fsWrite fs p content = .ok ups) :
    ups = (p, .file content) :: fsErase fs p := by
  unfold fsWrite at h
  split at h
  · exact absurd h (by simp)
  · injection h with h'
    exact h'.symm
  · split at h
    · injection h with h'
      exact h'.symm
    · exact absurd h (by simp)

/-- Removing the upload directory's regular files leaves none of them behind. -/
theorem filter_file_of_filter_not_file (l : Fs) :
    ((l.filter (fun e => !uploadsFileEntry e)).filter (fun e => uploadsFileEntry e)) = [] := by
  induction l with
  | nil => rfl
  | cons p t ih => cases hp : uploadsFileEntry p <;> simp [List.filter_cons, hp, ih]

/-- Inversion of a successful upload: every stage succeeded, the file is at the
filename's resolved target, the three globals are set from the resulting store,
and the trace records ingestion, the store branch taken, and both engine
builds. -/
theorem upload_ok_inv {c : Collab} {st : St} {filename content : String}
    {out : UploadOk} {st' : St} {tr : List CallEvent}
    (h : upload_document c st filename content = (.ok out, st', tr)) :
    ∃ ups chunks v r q,
      fsWrite st.fs (clientTarget filename) content = .ok ups ∧
      c.process_documents (uploadPath filename) = .ok chunks ∧
      chunks.isEmpty = false ∧
      (createOrUpdateStore c chunks st.vector_store).1 = .ok v ∧
      c.newRAGSystem v = .ok r ∧
      c.newQuizGenerator v = .ok q ∧
      st' = { fs := ups, indexDirOnDisk := st.indexDirOnDisk,
              vector_store := some v, rag_system := some r, quiz_generator := some q } ∧
      tr = .processDocuments (uploadPath filename) ::
             (createOrUpdateStore c chunks st.vector_store).2 ++ [.mkRAG, .mkQuiz] ∧
      out = ⟨"Document uploaded and processed successfully", filename,
             chunks.length, "success"⟩ := by
  unfold upload_document at h
  by_cases hext : supportedExt (lowerStr (pathExt filename)) = true
  swap
  · simp [hext] at h
  simp only [hext, if_true] at h
  cases hw : fsWrite st.fs (clientTarget filename) content with
  | error m => rw [hw] at h; simp at h
  | ok ups =>
  rw [hw] at h
  cases hp : c.process_documents (uploadPath filename) with
  | error m => simp [hp] at h
  | ok chunks =>
  cases hne : chunks.isEmpty with
  | true => simp [hp, hne] at h
  | false =>
  simp only [hp, hne] at h
  rw [if_neg (by decide)] at h
  cases hcu : (createOrUpdateStore c chunks st.vector_store).1 with
  | error m => simp [hcu] at h
  | ok v =>
  simp only [hcu] at h
  cases hr : c.newRAGSystem v with
  | error m => simp [hr] at h
  | ok r =>
  cases hq : c.newQuizGenerator v with
  | error m => simp [hr, hq] at h
  | ok q =>
  simp only [hr, hq, Prod.mk.injEq, Except.ok.injEq] at h
  refine ⟨ups, chunks, v, r, q, rfl, rfl, hne, hcu, hr, hq, ?_, ?_, ?_⟩
  · exact h.2.1.symm
  · exact h.2.2.symm
  · exact h.1.symm

/-- C1: for every upload request whose filename's lowercased extension lies
outside {.pdf, .txt}, the /upload handler returns HTTP 400, leaves the whole
state (filesystem and globals) unchanged, and calls no collaborator. -/
theorem upload_unsupported_rejected (c : Collab) (st : St) (filename content : String)
    (h : supportedExt (lowerStr (pathExt filename)) = false) :
    upload_document c st filename content =
      (.error ⟨400, "Unsupported file type: " ++ lowerStr (pathExt filename) ++
         ". Only .pdf and .txt are supported."⟩, st, []) := by
  simp [upload_document, h]

/-- Witness for C1 at the filename "slides.docx". -/
theorem upload_unsupported_rejected_witness :
    supportedExt (lowerStr (pathExt "slides.docx")) = false ∧
    upload_document okCollab st0 "slides.docx" "body" =
      (.error ⟨400, "Unsupported file type: .docx. Only .pdf and .txt are supported."⟩,
       st0, []) :=
  ⟨by decide, upload_unsupported_rejected okCollab st0 "slides.docx" "body" (by decide)⟩

/-- C2: while session state is uninitialized, /ask, /summarize, /definitions
and /quiz/generate each return HTTP 400 telling the caller to upload first, and
call no collaborator. -/
theorem query_uninitialized_rejected (c : Collab) (st : St) (h : St.uninitialized st)
    (question : String) (k : Nat) (topic : Option String) (summary_type : String)
    (k2 : Nat) (dtopic : String) (qtopic : String) (n : Nat) (difficulty : String) :
    ask_question c st question k =
      (.error ⟨400, "No documents uploaded yet. Please upload documents first."⟩, []) ∧
    summarize c st topic summary_type k2 =
      (.error ⟨400, "No documents uploaded yet. Please upload documents first."⟩, []) ∧
    get_definitions c st dtopic =
      (.error ⟨400, "No documents uploaded yet. Please upload documents first."⟩, []) ∧
    generate_quiz c st qtopic n difficulty =
      (.error ⟨400, "No documents uploaded yet. Please upload documents first."⟩, []) := by
  obtain ⟨-, h2, h3⟩ := h
  exact ⟨by simp [ask_question, h2], by simp [summarize, h2],
         by simp [get_definitions, h2], by simp [generate_quiz, h3]⟩

/-- Witness for C2 at the empty initial state. -/
theorem query_uninitialized_rejected_witness :
    St.uninitialized st0 ∧
    ask_question okCollab st0 "q" 5 =
      (.error ⟨400, "No documents uploaded yet. Please upload documents first."⟩, []) ∧
    summarize okCollab st0 none "bullets" 10 =
      (.error ⟨400, "No documents uploaded yet. Please upload documents first."⟩, []) ∧
    get_definitions okCollab st0 "terms" =
      (.error ⟨400, "No documents uploaded yet. Please upload documents first."⟩, []) ∧
    generate_quiz okCollab st0 "t" 3 "easy" =
      (.error ⟨400, "No documents uploaded yet. Please upload documents first."⟩, []) :=
  ⟨⟨rfl, rfl, rfl⟩,
   query_uninitialized_rejected okCollab st0 ⟨rfl, rfl, rfl⟩ "q" 5 none "bullets" 10
     "terms" "t" 3 "easy"⟩

/-- C3 counterexample: from a prior state whose upload directory holds a
directory entry, /reset succeeds yet the upload directory still has an entry,
because the handler removes only regular files. -/
theorem reset_keeps_directory_entry :
    (reset_system stDirEntry).1 = .ok ⟨"System reset successfully", "success"⟩ ∧
    listdirUploads (reset_system stDirEntry).2.fs ≠ [] :=
  ⟨rfl, by decide⟩

/-- C3 (amended): after a successful /reset the upload directory contains no
regular-file entries (entries that are not regular files are skipped and may
remain) and the three session-state globals are null. -/
theorem reset_clears_files_and_state (st : St) :
    (reset_system st).1 = .ok ⟨"System reset successfully", "success"⟩ ∧
    (reset_system st).2.fs.filter (fun e => uploadsFileEntry e) = [] ∧
    (reset_system st).2.vector_store = none ∧
    (reset_system st).2.rag_system = none ∧
    (reset_system st).2.quiz_generator = none :=
  ⟨rfl, filter_file_of_filter_not_file st.fs, rfl, rfl, rfl⟩

/-- C4 counterexample: the filename "../evil.txt" passes extension validation,
uploads successfully from the initial state — the write resolves to
`data/evil.txt`, outside the upload directory — yet GET /documents then lists
nothing, so the uploaded filename is not listed. -/
theorem upload_outside_dir_not_listed :
    (upload_document okCollab st0 "../evil.txt" "x").1 =
      .ok ⟨"Document uploaded and processed successfully", "../evil.txt", 2, "success"⟩ ∧
    clientTarget "../evil.txt" = ⟨false, ["data", "evil.txt"]⟩ ∧
    list_documents (upload_document okCollab st0 "../evil.txt" "x").2.1 =
      .ok ⟨[], 0⟩ ∧
    "../evil.txt" ∉ (⟨[], 0⟩ : DocsOk).documents :=
  ⟨rfl, by decide, rfl, by decide⟩

/-- C4 (amended): after every successful /upload, the three globals are set;
and whenever the filename resolves to an entry directly inside the upload
directory under its own name (true of every filename without path separators),
GET /documents lists it. -/
theorem upload_success_initializes_and_lists (c : Collab) (st : St)
    (filename content : String) (out : UploadOk) (st' : St) (tr : List CallEvent)
    (h : upload_document c st filename content = (.ok out, st', tr)) :
    st'.vector_store.isSome ∧ st'.rag_system.isSome ∧ st'.quiz_generator.isSome ∧
    (clientTarget filename = uploadEntry filename →
       ∃ d, list_documents st' = .ok d ∧ filename ∈ d.documents) := by
  obtain ⟨ups, chunks, v, r, q, hw, hp, hne, hcu, hr, hq, hst, htr, hout⟩ :=
    upload_ok_inv h
  subst hst
  refine ⟨rfl, rfl, rfl, ?_⟩
  intro hloc
  have hups := fsWrite_ok_inv hw
  rw [hloc] at hups
  subst hups
  refine ⟨_, rfl, ?_⟩
  simp [list_documents, listdirUploads, uploadsChildName, uploadEntry, fsLookup,
        List.filterMap_cons, List.mem_filter]

/-- Witness for C4's amended theorem: a concrete successful upload of "a.txt",
whose resolved target is its own upload-directory entry. -/
theorem upload_success_initializes_and_lists_witness :
    ((upload_document okCollab st0 "a.txt" "x").2.1).vector_store.isSome ∧
    ((upload_document okCollab st0 "a.txt" "x").2.1).rag_system.isSome ∧
    ((upload_document okCollab st0 "a.txt" "x").2.1).quiz_generator.isSome ∧
    clientTarget "a.txt" = uploadEntry "a.txt" ∧
    ∃ d, list_documents ((upload_document okCollab st0 "a.txt" "x").2.1) = .ok d ∧
      "a.txt" ∈ d.documents := by
  have H := upload_success_initializes_and_lists okCollab st0 "a.txt" "x"
    ⟨"Document uploaded and processed successfully", "a.txt", 2, "success"⟩
    { fs := (uploadEntry "a.txt", FsEntry.file "x") :: baseFs, indexDirOnDisk := false,
      vector_store := some 1, rag_system := some ⟨1⟩, quiz_generator := some ⟨1⟩ }
    [.processDocuments "data/uploads/a.txt", .createVectorStore, .mkRAG, .mkQuiz]
    rfl
  exact ⟨H.1, H.2.1, H.2.2.1, by decide, H.2.2.2 (by decide)⟩

/-- C7: when the ingestion collaborator returns an empty chunk result, /upload
returns HTTP 500 "Failed to extract content from document", the vector store is
neither created nor updated (no store call appears in the trace and the global
keeps its prior value). -/
theorem upload_empty_chunks_500 (c : Collab) (st : St) (filename content : String)
    (ups : Fs)
    (hext : supportedExt (lowerStr (pathExt filename)) = true)
    (hw : fsWrite st.fs (clientTarget filename) content = .ok ups)
    (hp : c.process_documents (uploadPath filename) = .ok []) :
    upload_document c st filename content =
      (.error ⟨500, "Failed to extract content from document"⟩,
       { st with fs := ups }, [.processDocuments (uploadPath filename)]) := by
  simp [upload_document, hext, hw, hp]

/-- Witness for C7: uploading "a.txt" against an oracle that yields no chunks. -/
theorem upload_empty_chunks_500_witness :
    upload_document colNoChunks st0 "a.txt" "x" =
      (.error ⟨500, "Failed to extract content from document"⟩,
       { st0 with fs := (uploadEntry "a.txt", FsEntry.file "x") :: baseFs },
       [.processDocuments (uploadPath "a.txt")]) :=
  upload_empty_chunks_500 colNoChunks st0 "a.txt" "x"
    ((uploadEntry "a.txt", FsEntry.file "x") :: baseFs) (by decide) rfl rfl

/-- C9: /quiz/grade, like the four endpoints the spec names, rejects requests
made while session state is uninitialized with HTTP 400 and calls no
collaborator. -/
theorem grade_uninitialized_rejected (c : Collab) (st : St) (h : St.uninitialized st)
    (questions : List String) (user_answers : List (Nat × String)) :
    grade_quiz c st questions user_answers =
      (.error ⟨400, "No documents uploaded yet. Please upload documents first."⟩, []) := by
  obtain ⟨-, -, h3⟩ := h
  simp [grade_quiz, h3]

/-- Witness for C9 at the empty initial state. -/
theorem grade_uninitialized_rejected_witness :
    St.uninitialized st0 ∧
    grade_quiz okCollab st0 [] [] =
      (.error ⟨400, "No documents uploaded yet. Please upload documents first."⟩, []) :=
  ⟨⟨rfl, rfl, rfl⟩, grade_uninitialized_rejected okCollab st0 ⟨rfl, rfl, rfl⟩ [] []⟩

/-- C10: an upload rejected for an unsupported extension leaves the whole state
unchanged, and an upload failing on an empty chunk result leaves the three
globals unchanged. -/
theorem upload_failure_preserves_globals (c : Collab) (st : St) (filename content : String) :
    (supportedExt (lowerStr (pathExt filename)) = false →
       (upload_document c st filename content).2.1 = st) ∧
    (∀ ups, supportedExt (lowerStr (pathExt filename)) = true →
       fsWrite st.fs (clientTarget filename) content = .ok ups →
       c.process_documents (uploadPath filename) = .ok [] →
       (upload_document c st filename content).2.1.vector_store = st.vector_store ∧
       (upload_document c st filename content).2.1.rag_system = st.rag_system ∧
       (upload_document c st filename content).2.1.quiz_generator = st.quiz_generator) := by
  constructor
  · intro h
    simp [upload_document, h]
  · intro ups hext hw hp
    simp [upload_document, hext, hw, hp]

/-- Witness for C10: both failed uploads leave the globals of stInit intact. -/
theorem upload_failure_preserves_globals_witness :
    (upload_document okCollab stInit "slides.docx" "b").2.1 = stInit ∧
    ((upload_document colNoChunks stInit "a.txt" "x").2.1.vector_store =
       stInit.vector_store ∧
     (upload_document colNoChunks stInit "a.txt" "x").2.1.rag_system =
       stInit.rag_system ∧
     (upload_document colNoChunks stInit "a.txt" "x").2.1.quiz_generator =
       stInit.quiz_generator) :=
  ⟨(upload_failure_preserves_globals okCollab stInit "slides.docx" "b").1 (by decide),
   (upload_failure_preserves_globals colNoChunks stInit "a.txt" "x").2
     ((uploadEntry "a.txt", FsEntry.file "x") :: baseFs) (by decide) rfl rfl⟩

/-- C5: a successful upload builds a new store exactly when none is active and
otherwise extends the existing store and reloads it from disk; in both cases
the session engines are rebuilt from the store the upload installed. -/
theorem upload_branches_and_reloads (c : Collab) (st : St)
    (filename content : String) (out : UploadOk) (st' : St) (tr : List CallEvent)
    (h : upload_document c st filename content = (.ok out, st', tr)) :
    (st.vector_store = none →
       CallEvent.createVectorStore ∈ tr ∧ CallEvent.addDocuments ∉ tr ∧
       CallEvent.loadVectorStore ∉ tr ∧
       ∃ chunks v, c.process_documents (uploadPath filename) = .ok chunks ∧
         c.create_vector_store chunks VECTOR_STORE_NAME = .ok v ∧
         st'.vector_store = some v) ∧
    ((∃ v0, st.vector_store = some v0) →
       CallEvent.addDocuments ∈ tr ∧ CallEvent.loadVectorStore ∈ tr ∧
       CallEvent.createVectorStore ∉ tr ∧
       ∃ v, c.load_vector_store VECTOR_STORE_NAME = .ok v ∧
         st'.vector_store = some v) ∧
    (∃ v r q, st'.vector_store = some v ∧
       c.newRAGSystem v = .ok r ∧ st'.rag_system = some r ∧
       c.newQuizGenerator v = .ok q ∧ st'.quiz_generator = some q) := by
  obtain ⟨ups, chunks, v, r, q, hw, hp, hne, hcu, hr, hq, hst, htr, hout⟩ :=
    upload_ok_inv h
  subst hst htr
  refine ⟨?_, ?_, ⟨v, r, q, rfl, hr, rfl, hq, rfl⟩⟩
  · intro hvs
    rw [hvs] at hcu ⊢
    cases hcv : c.create_vector_store chunks VECTOR_STORE_NAME with
    | error m => simp [createOrUpdateStore, hcv] at hcu
    | ok w =>
      simp only [createOrUpdateStore, hcv, Except.ok.injEq] at hcu
      subst hcu
      refine ⟨by simp [createOrUpdateStore, hcv], by simp [createOrUpdateStore, hcv],
              by simp [createOrUpdateStore, hcv], chunks, w, hp, hcv, rfl⟩
  · rintro ⟨v0, hvs⟩
    rw [hvs] at hcu ⊢
    cases had : c.add_documents_to_existing_store chunks VECTOR_STORE_NAME with
    | error m => simp [createOrUpdateStore, had] at hcu
    | ok u =>
      cases hld : c.load_vector_store VECTOR_STORE_NAME with
      | error m => simp [createOrUpdateStore, had, hld] at hcu
      | ok w =>
        simp only [createOrUpdateStore, had, hld, Except.ok.injEq] at hcu
        subst hcu
        refine ⟨by simp [createOrUpdateStore, had, hld],
                by simp [createOrUpdateStore, had, hld],
                by simp [createOrUpdateStore, had, hld], w, rfl, rfl⟩

/-- Witness for C5: a first upload into the empty state creates a store, a
later upload into a state holding store 7 extends and reloads it. -/
theorem upload_branches_and_reloads_witness :
    CallEvent.createVectorStore ∈ (upload_document okCollab st0 "a.txt" "x").2.2 ∧
    CallEvent.addDocuments ∈ (upload_document okCollab stSome "b.pdf" "y").2.2 ∧
    CallEvent.loadVectorStore ∈ (upload_document okCollab stSome "b.pdf" "y").2.2 := by
  refine ⟨((upload_branches_and_reloads okCollab st0 "a.txt" "x" _ _ _ rfl).1 rfl).1,
          ((upload_branches_and_reloads okCollab stSome "b.pdf" "y" _ _ _ rfl).2.1
            ⟨7, rfl⟩).1,
          ((upload_branches_and_reloads okCollab stSome "b.pdf" "y" _ _ _ rfl).2.1
            ⟨7, rfl⟩).2.1⟩

/-- C6: any exception a collaborator call raises inside a route handler is
caught and returned as HTTP 500 whose detail carries the original message, for
every endpoint: the upload pipeline (ingestion, store creation/update, engine
construction) and the five query endpoints. -/
theorem collaborator_exception_becomes_500 :
    (∀ (c : Collab) (st : St) (filename content : String) ups m,
       supportedExt (lowerStr (pathExt filename)) = true →
       fsWrite st.fs (clientTarget filename) content = .ok ups →
       c.process_documents (uploadPath filename) = .error m →
       (upload_document c st filename content).1 =
         .error ⟨500, "Upload failed: " ++ m⟩) ∧
    (∀ (c : Collab) (st : St) (filename content : String) ups chunks m tr,
       supportedExt (lowerStr (pathExt filename)) = true →
       fsWrite st.fs (clientTarget filename) content = .ok ups →
       c.process_documents (uploadPath filename) = .ok chunks →
       chunks.isEmpty = false →
       createOrUpdateStore c chunks st.vector_store = (.error m, tr) →
       (upload_document c st filename content).1 =
         .error ⟨500, "Failed to create/update vector store: " ++ m⟩) ∧
    (∀ (c : Collab) (st : St) (filename content : String) ups chunks v tr m,
       supportedExt (lowerStr (pathExt filename)) = true →
       fsWrite st.fs (clientTarget filename) content = .ok ups →
       c.process_documents (uploadPath filename) = .ok chunks →
       chunks.isEmpty = false →
       createOrUpdateStore c chunks st.vector_store = (.ok v, tr) →
       c.newRAGSystem v = .error m →
       (upload_document c st filename content).1 =
         .error ⟨500, "Upload failed: " ++ m⟩) ∧
    (∀ (c : Collab) (st : St) (filename content : String) ups chunks v tr r m,
       supportedExt (lowerStr (pathExt filename)) = true →
       fsWrite st.fs (clientTarget filename) content = .ok ups →
       c.process_documents (uploadPath filename) = .ok chunks →
       chunks.isEmpty = false →
       createOrUpdateStore c chunks st.vector_store = (.ok v, tr) →
       c.newRAGSystem v = .ok r →
       c.newQuizGenerator v = .error m →
       (upload_document c st filename content).1 =
         .error ⟨500, "Upload failed: " ++ m⟩) ∧
    (∀ (c : Collab) (st : St) r question k m, st.rag_system = some r →
       c.rag_ask_question r question k = .error m →
       (ask_question c st question k).1 =
         .error ⟨500, "Question answering failed: " ++ m⟩) ∧
    (∀ (c : Collab) (st : St) r topic summary_type k m, st.rag_system = some r →
       c.rag_summarize r topic summary_type k = .error m →
       (summarize c st topic summary_type k).1 =
         .error ⟨500, "Summarization failed: " ++ m⟩) ∧
    (∀ (c : Collab) (st : St) r topic m, st.rag_system = some r →
       c.rag_extract_definitions r topic = .error m →
       (get_definitions c st topic).1 =
         .error ⟨500, "Definition extraction failed: " ++ m⟩) ∧
    (∀ (c : Collab) (st : St) qg topic n difficulty m, st.quiz_generator = some qg →
       c.quiz_generate_quiz qg topic n difficulty = .error m →
       (generate_quiz c st topic n difficulty).1 =
         .error ⟨500, "Quiz generation failed: " ++ m⟩) ∧
    (∀ (c : Collab) (st : St) qg questions user_answers m, st.quiz_generator = some qg →
       c.quiz_grade_quiz qg questions user_answers = .error m →
       (grade_quiz c st questions user_answers).1 =
         .error ⟨500, "Quiz grading failed: " ++ m⟩) := by
  refine ⟨?_, ?_, ?_, ?_, ?_, ?_, ?_, ?_, ?_⟩
  · intro c st filename content ups m hext hw hp
    simp [upload_document, hext, hw, hp]
  · intro c st filename content ups chunks m tr hext hw hp hne hcu
    simp [upload_document, hext, hw, hp, hne, hcu]
  · intro c st filename content ups chunks v tr m hext hw hp hne hcu hr
    simp [upload_document, hext, hw, hp, hne, hcu, hr]
  · intro c st filename content ups chunks v tr r m hext hw hp hne hcu hr hq
    simp [upload_document, hext, hw, hp, hne, hcu, hr, hq]
  · intro c st r question k m hrs hask
    simp [ask_question, hrs, hask]
  · intro c st r topic summary_type k m hrs hsum
    simp [summarize, hrs, hsum]
  · intro c st r topic m hrs hdef
    simp [get_definitions, hrs, hdef]
  · intro c st qg topic n difficulty m hqg hgen
    simp [generate_quiz, hqg, hgen]
  · intro c st qg questions user_answers m hqg hgr
    simp [grade_quiz, hqg, hgr]

/-- Witness for C6: one failing collaborator per stage, each surfaced as 500
carrying the injected message. -/
theorem collaborator_exception_becomes_500_witness :
    (upload_document colPDfail st0 "a.txt" "x").1 =
      .error ⟨500, "Upload failed: E1"⟩ ∧
    (upload_document colCVfail st0 "a.txt" "x").1 =
      .error ⟨500, "Failed to create/update vector store: E2"⟩ ∧
    (upload_document colRAGfail st0 "a.txt" "x").1 =
      .error ⟨500, "Upload failed: E3"⟩ ∧
    (upload_document colQGfail st0 "a.txt" "x").1 =
      .error ⟨500, "Upload failed: E4"⟩ ∧
    (ask_question colQueryFail stInit "q" 5).1 =
      .error ⟨500, "Question answering failed: E5"⟩ ∧
    (summarize colQueryFail stInit none "bullets" 10).1 =
      .error ⟨500, "Summarization failed: E6"⟩ ∧
    (get_definitions colQueryFail stInit "t").1 =
      .error ⟨500, "Definition extraction failed: E7"⟩ ∧
    (generate_quiz colQueryFail stInit "t" 3 "easy").1 =
      .error ⟨500, "Quiz generation failed: E8"⟩ ∧
    (grade_quiz colQueryFail stInit [] []).1 =
      .error ⟨500, "Quiz grading failed: E9"⟩ := by
  refine ⟨?_, ?_, ?_, ?_, ?_, ?_, ?_, ?_, ?_⟩
  · exact collaborator_exception_becomes_500.1 colPDfail st0 "a.txt" "x"
      ((uploadEntry "a.txt", FsEntry.file "x") :: baseFs) "E1" (by decide) rfl rfl
  · exact collaborator_exception_becomes_500.2.1 colCVfail st0 "a.txt" "x"
      ((uploadEntry "a.txt", FsEntry.file "x") :: baseFs) ["alpha", "beta"] "E2"
      [.createVectorStore] (by decide) rfl rfl rfl rfl
  · exact collaborator_exception_becomes_500.2.2.1 colRAGfail st0 "a.txt" "x"
      ((uploadEntry "a.txt", FsEntry.file "x") :: baseFs) ["alpha", "beta"] 1
      [.createVectorStore] "E3" (by decide) rfl rfl rfl rfl rfl
  · exact collaborator_exception_becomes_500.2.2.2.1 colQGfail st0 "a.txt" "x"
      ((uploadEntry "a.txt", FsEntry.file "x") :: baseFs) ["alpha", "beta"] 1
      [.createVectorStore] ⟨1⟩ "E4" (by decide) rfl rfl rfl rfl rfl rfl
  · exact collaborator_exception_becomes_500.2.2.2.2.1 colQueryFail stInit ⟨1⟩
      "q" 5 "E5" rfl rfl
  · exact collaborator_exception_becomes_500.2.2.2.2.2.1 colQueryFail stInit ⟨1⟩
      none "bullets" 10 "E6" rfl rfl
  · exact collaborator_exception_becomes_500.2.2.2.2.2.2.1 colQueryFail stInit ⟨1⟩
      "t" "E7" rfl rfl
  · exact collaborator_exception_becomes_500.2.2.2.2.2.2.2.1 colQueryFail stInit ⟨1⟩
      "t" 3 "easy" "E8" rfl rfl
  · exact collaborator_exception_becomes_500.2.2.2.2.2.2.2.2 colQueryFail stInit ⟨1⟩
      [] [] "E9" rfl rfl

/-- C8: uploading a supported-extension file whose resolved target is already
stored as a regular file — in particular a file already in the upload
directory, whose stored name is slash-free — succeeds (when ingestion and the
store and engine steps succeed) and replaces the stored contents with the new
upload's contents. -/
theorem upload_same_name_overwrites (c : Collab) (st : St)
    (filename oldContent newContent : String) (chunks : List String) (v : VS)
    (r : RAG) (q : QuizGen)
    (hold : fsLookup st.fs (clientTarget filename) = some (.file oldContent))
    (hext : supportedExt (lowerStr (pathExt filename)) = true)
    (hp : c.process_documents (uploadPath filename) = .ok chunks)
    (hne : chunks.isEmpty = false)
    (hcu : (createOrUpdateStore c chunks st.vector_store).1 = .ok v)
    (hr : c.newRAGSystem v = .ok r)
    (hq : c.newQuizGenerator v = .ok q) :
    (upload_document c st filename newContent).1 =
      .ok ⟨"Document uploaded and processed successfully", filename,
           chunks.length, "success"⟩ ∧
    fsLookup (upload_document c st filename newContent).2.1.fs (clientTarget filename) =
      some (.file newContent) := by
  have hw : fsWrite st.fs (clientTarget filename) newContent =
      .ok ((clientTarget filename, .file newContent) :: fsErase st.fs (clientTarget filename)) := by
    unfold fsWrite
    rw [hold]
  constructor <;> simp [upload_document, hext, hw, hp, hne, hcu, hr, hq, fsLookup]

/-- Witness for C8: re-uploading "a.txt" over its stored contents "old". -/
theorem upload_same_name_overwrites_witness :
    (upload_document okCollab stOldFile "a.txt" "new").1 =
      .ok ⟨"Document uploaded and processed successfully", "a.txt", 2, "success"⟩ ∧
    fsLookup (upload_document okCollab stOldFile "a.txt" "new").2.1.fs
      (clientTarget "a.txt") = some (.file "new") :=
  upload_same_name_overwrites okCollab stOldFile "a.txt" "old" "new"
    ["alpha", "beta"] 1 ⟨1⟩ ⟨1⟩ (by decide) (by decide) rfl rfl rfl rfl rfl

end StudyAPI
